import Mathlib

/-!
Verification of the MLE-agent memory façade and chat loop.

Shallow embedding of `src/mle/utils/memory.py` (classes `ChromaDBMemory` and
`LanceDBMemory`) and `src/agent/utils/chat.py` (class `Chat`).  The external
vector-store clients (chromadb / lancedb) are modelled as explicit store
states, the external `uuid.uuid4()` randomness as an injective supply of
fresh identifier strings, and the hosted completion stream as a scripted
list of chunks together with an optional failure point.
-/

namespace MLEAgent

/-! ## Model of the external uuid.uuid4() supply

`str(uuid.uuid4())` draws a fresh random identifier string.  We model the
randomness as an indexed supply: the `k`-th draw of the process yields a
string that is distinct from every other draw (uuid4 collisions are
assumed away, as the code does). -/

/-- The `k`-th draw of the external uuid source, as a string.  Modelled as a
string whose length determines `k`, which makes the supply injective. -/
def uuid4 (k : Nat) : String :=
  "uuid-" ++ String.mk (List.replicate k '*')

/-- Model of `[str(uuid.uuid4()) for _ in range(n)]`, drawing from the supply starting
at position `seed`. -/
def genUUIDs (seed n : Nat) : List String :=
  (List.range n).map (fun i => uuid4 (seed + i))

/-! ## Chat (`src/agent/utils/chat.py`)

The transcript entries are the dicts `{"role": ..., "content": ...}` the code
appends to `self.chat_history`.  A streamed token is modelled by the two
fields the loop reads from it: `token.choices[0].delta.content` and
`token.choices[0].finish_reason`. -/

structure Message where
  role : String
  content : String
deriving DecidableEq, Repr

/-- One streamed token, flattened to the two fields
`choices[0].delta.content` and `choices[0].finish_reason` that
`handle_streaming` reads from it. -/
structure Chunk where
  content : Option String
  finish_reason : Option String
deriving DecidableEq, Repr

/-- A scripted run of `self.agent.completions(...)`: the stream items it
produces (an item may be a falsy `None`), and, if the call or the iteration
raises, the exception message raised after those items. -/
structure Script where
  chunks : List (Option Chunk)
  failure : Option String
deriving DecidableEq, Repr

namespace Chat

/-- Model of `Chat.chat_generator`: appends the user message to `chat_history`, then
yields every truthy chunk of the completion stream (`if chunk: yield chunk`).
An exception from the completion call or mid-iteration is caught by the
`try/except` and printed, so it never propagates and never undoes the
yields already made: `script.failure` has no effect on the result.
Returns the new history and the list of yielded chunks, in yield order. -/
def chat_generator (history : List Message) (message : String)
    (script : Script) : List Message × List Chunk :=
  (history ++ [⟨"user", message⟩], script.chunks.filterMap id)

/-- The accumulation loop of `handle_streaming`:
`content = token.choices[0].delta.content; if content: text = text + content`.
A `None` content and an empty-string content are both falsy and skipped. -/
def accumText : List Chunk → String → String
  | [], text => text
  | c :: rest, text =>
      let text' := match c.content with
        | some s => if s = "" then text else text ++ s
        | none => text
      accumText rest text'

/-- Model of `Chat.handle_streaming`: drives `chat_generator`, accumulates the
content fields of the yielded chunks into `text`, and appends the
assistant entry `{"role": "assistant", "content": text}`. -/
def handle_streaming (history : List Message) (prompt : String)
    (script : Script) : List Message :=
  let res := chat_generator history prompt script
  res.1 ++ [⟨"assistant", accumText res.2 ""⟩]

end Chat

/-! ## Model of stored records

A stored record is a Python dict, modelled as an association list from field
names to values.  `Val` covers the value shapes the two `add` operations
actually store: strings, embedding vectors, nested dicts and `None`. -/

inductive Val where
  | str (s : String)
  | vec (v : List Int)
  | dict (d : List (String × String))
  | none
deriving DecidableEq, Repr

/-- A stored record: a dict from field names to values. -/
abbrev Rec := List (String × Val)

/-- Dict lookup: the value at the first occurrence of key `n`. -/
def alookup {α : Type} (n : String) : List (String × α) → Option α
  | [] => Option.none
  | (k, v) :: rest => if n = k then some v else alookup n rest

/-- The configuration returned by `get_config(project_path)`; the two keys
the memory constructors read. -/
structure Config where
  platform : String
  api_key : String
deriving DecidableEq, Repr

/-- The id-resolution idiom shared by both add operations
(`if idx: ids = idx else: ids = [str(uuid.uuid4()) ...]` in
`ChromaDBMemory.add_query`, `ids or [str(uuid.uuid4()) ...]` in
`LanceDBMemory.add`): a `None` or empty id list is falsy and triggers
generation of `n` fresh UUIDs. -/
def resolveIds (idx : Option (List String)) (seed n : Nat) : List String :=
  match idx with
  | some l => if l ≠ [] then l else genUUIDs seed n
  | Option.none => genUUIDs seed n

/-- Model of `os.path.join(a, b)` for the POSIX paths the code builds: an absolute
`b` wins; otherwise a slash separates the parts unless `a` already ends with
one. -/
def osPathJoin (a b : String) : String :=
  if b.data.head? = some '/' then b
  else if a = "" then b
  else if a.data.getLast? = some '/' then a ++ b
  else a ++ "/" ++ b

/-! ## Model of the external chromadb client

Only the behaviour the code relies on is modelled: a persistent client is a
set of named collections, each carrying the embedding function it was
created with and its records; `reset` is gated on the client's
`allow_reset` setting (the `ALLOW_RESET` opt-in). -/

/-- The embedding function attached to a chroma collection: the hosted
OpenAI one (`embedding_functions.OpenAIEmbeddingFunction`) or chromadb's
built-in default. -/
inductive ChromaEmbedding where
  | openAI (model_name api_key : String)
  | default
deriving DecidableEq, Repr

structure ChromaCollection where
  embedding : ChromaEmbedding
  records : List Rec
deriving DecidableEq, Repr

structure ChromaClient where
  collections : List (String × ChromaCollection)
  allow_reset : Bool
deriving DecidableEq, Repr

namespace ChromaClient

/-- Model of `client.get_or_create_collection(name, embedding_function=ef)`: creates
an empty collection with the given embedding function when absent,
otherwise leaves the store unchanged. -/
def get_or_create_collection (c : ChromaClient) (name : String)
    (ef : ChromaEmbedding) : ChromaClient :=
  if (alookup name c.collections).isSome then c
  else { c with collections := c.collections ++ [(name, ⟨ef, []⟩)] }

/-- The records a chroma `collection.add(documents=…, metadatas=…, ids=…)`
call stores, one `{id, document, metadata}` record per position. -/
def mkRecords (documents : List String)
    (metadatas : List (List (String × String))) (ids : List String) :
    List Rec :=
  (ids.zip (documents.zip metadatas)).map (fun q =>
    [("id", Val.str q.1), ("document", Val.str q.2.1),
     ("metadata", Val.dict q.2.2)])

/-- Model of `collection.add(documents=…, metadatas=…, ids=…)` on the collection
`name` (assumed present): chromadb rejects the call when the three lists do
not have the same length, otherwise it appends one record
`{id, document, metadata}` per position. -/
def collection_add (c : ChromaClient) (name : String)
    (documents : List String) (metadatas : List (List (String × String)))
    (ids : List String) : Except String ChromaClient :=
  if ids.length = documents.length ∧ ids.length = metadatas.length then
    .ok { c with collections := c.collections.map (fun p =>
      if p.1 = name then
        (p.1, { p.2 with
                records := p.2.records ++ mkRecords documents metadatas ids })
      else p) }
  else .error "ValueError: unequal lengths"

/-- Model of `client.get_collection(name)`: fails when the collection is absent. -/
def get_collection (c : ChromaClient) (name : String) :
    Except String ChromaCollection :=
  match alookup name c.collections with
  | some col => .ok col
  | none => .error "ValueError: collection does not exist"

/-- Model of `client.delete_collection(name=…)`: removes the collection as a whole;
fails with a not-found error when it is absent. -/
def delete_collection (c : ChromaClient) (name : String) :
    Except String ChromaClient :=
  if (alookup name c.collections).isSome then
    .ok { c with collections := c.collections.filter (fun p => p.1 ≠ name) }
  else .error "ValueError: collection does not exist"

/-- Model of `client.reset()`: wipes every collection, but only when the
`ALLOW_RESET` opt-in is set; otherwise the client rejects the call. -/
def reset (c : ChromaClient) : Except String ChromaClient :=
  if c.allow_reset then .ok { c with collections := [] }
  else .error "ValueError: reset is disabled by config"

end ChromaClient

/-! ## `ChromaDBMemory` (src/mle/utils/memory.py, lines 17-158) -/

/-- One element of the `queries` argument of `add_query`:
`{"query": ..., "response": ...}`. -/
structure QueryItem where
  query : String
  response : String
deriving DecidableEq, Repr

structure ChromaDBMemory where
  db_name : String
  collection_name : String
  /-- The path handed to `chromadb.PersistentClient(path=...)`. -/
  persist_path : String
  client : ChromaClient
deriving DecidableEq, Repr

namespace ChromaDBMemory

/-- Model of `ChromaDBMemory.__init__`: records `db_name = '.mle'`,
`collection_name = 'memory'`, opens a persistent client at
`os.path.join(project_path, '.mle')`, and eagerly runs
`get_or_create_collection` on the default collection, attaching the hosted
OpenAI embedding function exactly when the configured platform is
`'OpenAI'`.  `store` is the persisted client state found at that path. -/
def init (project_path : String) (embedding_model : String) (config : Config)
    (store : ChromaClient) : ChromaDBMemory :=
  let ef := if config.platform = "OpenAI"
    then ChromaEmbedding.openAI embedding_model config.api_key
    else ChromaEmbedding.default
  { db_name := ".mle"
    collection_name := "memory"
    persist_path := osPathJoin project_path ".mle"
    client := store.get_or_create_collection "memory" ef }

/-- Python truthiness of the optional `collection` argument: `None` and the
empty string both fall back to the instance default. -/
def collOrDefault (m : ChromaDBMemory) : Option String → String
  | some c => if c ≠ "" then c else m.collection_name
  | Option.none => m.collection_name

/-- Model of `ChromaDBMemory.add_query`.  `now` is `datetime.now().isoformat()` and
`seed` the position of the uuid supply.  `if idx:` means a `None` or empty
`idx` generates fresh UUIDs; `if not collection:` falls back to the default
collection.  Returns the id list and the updated memory, or the error the
underlying `add` raises. -/
def add_query (m : ChromaDBMemory) (queries : List QueryItem)
    (collection : Option String) (idx : Option (List String))
    (now : String) (seed : Nat) :
    Except String (List String × ChromaDBMemory) :=
  let ids := resolveIds idx seed queries.length
  let coll := m.collOrDefault collection
  let query_list := queries.map (·.query)
  let resp_list := queries.map (fun q =>
    [("response", q.response), ("created_at", now)])
  let client := m.client.get_or_create_collection coll ChromaEmbedding.default
  (client.collection_add coll query_list resp_list ids).map
    (fun c => (ids, { m with client := c }))

/-- Model of `ChromaDBMemory.delete`: forwards to `client.delete_collection`,
defaulting to the instance collection name. -/
def delete (m : ChromaDBMemory) (collection_name : Option String) :
    Except String ChromaDBMemory :=
  (m.client.delete_collection (m.collOrDefault collection_name)).map
    (fun c => { m with client := c })

/-- Model of `ChromaDBMemory.count`: `client.get_collection(name).count()`. -/
def count (m : ChromaDBMemory) (collection_name : Option String) :
    Except String Nat :=
  (m.client.get_collection (m.collOrDefault collection_name)).map
    (fun col => col.records.length)

/-- Model of `ChromaDBMemory.reset`: forwards to `client.reset()`, which requires the
`ALLOW_RESET` opt-in. -/
def reset (m : ChromaDBMemory) : Except String ChromaDBMemory :=
  m.client.reset.map (fun c => { m with client := c })

end ChromaDBMemory

/-! ## Model of the external lancedb client

A connection is a set of named tables of records.  `drop_table` and
`open_table` fail on a missing table; `table.delete(pred)` removes the rows
matching the predicate. -/

structure LanceClient where
  tables : List (String × List Rec)
deriving DecidableEq, Repr

namespace LanceClient

/-- Model of `client.table_names()`. -/
def table_names (c : LanceClient) : List String := c.tables.map (·.1)

/-- Model of `client.create_table(name, data=data)` (the code only calls it when the
table is absent). -/
def create_table (c : LanceClient) (name : String) (data : List Rec) :
    LanceClient :=
  { tables := c.tables ++ [(name, data)] }

/-- Model of `client.open_table(name)`: the table's rows; fails when absent. -/
def open_table (c : LanceClient) (name : String) : Except String (List Rec) :=
  match alookup name c.tables with
  | some rows => .ok rows
  | Option.none => .error "FileNotFoundError: table does not exist"

/-- Model of `client.open_table(name).add(data=data)`: appends rows to an existing
table. -/
def open_table_add (c : LanceClient) (name : String) (data : List Rec) :
    LanceClient :=
  { tables := c.tables.map (fun p =>
      if p.1 = name then (p.1, p.2 ++ data) else p) }

/-- Model of `client.open_table(name).delete("id = '<record_id>'")`: removes from the
table every row whose `id` field equals `record_id`; fails when the table is
absent. -/
def table_delete_by_id (c : LanceClient) (name record_id : String) :
    Except String LanceClient :=
  match alookup name c.tables with
  | some _ => .ok { tables := c.tables.map (fun p =>
      if p.1 = name then
        (p.1, p.2.filter (fun r => alookup "id" r ≠ some (Val.str record_id)))
      else p) }
  | Option.none => .error "FileNotFoundError: table does not exist"

/-- Model of `client.drop_table(name)`: removes the table as a whole; fails when it
is absent. -/
def drop_table (c : LanceClient) (name : String) : Except String LanceClient :=
  if (alookup name c.tables).isSome then
    .ok { tables := c.tables.filter (fun p => p.1 ≠ name) }
  else .error "FileNotFoundError: table does not exist"

end LanceClient

/-! ## `LanceDBMemory` (src/mle/utils/memory.py, lines 161-299) -/

/-- The `texts` argument of `add`: declared `List[str]`, but a bare string
is accepted and coerced (`if isinstance(texts, str): texts = (texts,)`). -/
inductive TextsArg where
  | str (s : String)
  | list (l : List String)
deriving DecidableEq, Repr

/-- A metadata dict. -/
abbrev MetaDict := List (String × String)

/-- The `metadata` argument of `add`: declared `Optional[List[Dict]]`, but a
bare dict is accepted and coerced (`elif isinstance(metadata, dict)`). -/
inductive MetaArg where
  | dict (d : MetaDict)
  | list (l : List (Option MetaDict))
deriving DecidableEq, Repr

/-- The externally observable side effects of `LanceDBMemory.add`, in
program order: calls to `compute_source_embeddings` and table writes. -/
inductive Effect where
  | embed (texts : List String)
  | create_table (name : String)
  | add_rows (name : String)
deriving DecidableEq, Repr

structure LanceDBMemory where
  db_name : String
  table_name : String
  /-- The uri handed to `lancedb.connect(uri=...)`. -/
  uri : String
  /-- Model of `self.text_embedding.compute_source_embeddings`, the hosted OpenAI
  embedding: an external function from text to vector. -/
  text_embedding : String → List Int
  client : LanceClient

namespace LanceDBMemory

/-- Model of `LanceDBMemory.__init__`: records `db_name = '.mle'`,
`table_name = 'memory'` and connects at `uri=self.db_name` — the uri does
not involve `project_path`.  When the configured platform is not `'OpenAI'`
the constructor raises `NotImplementedError`.  `embed` is the external
OpenAI embedding function and `store` the connected database state. -/
def init (project_path : String) (config : Config)
    (embed : String → List Int) (store : LanceClient) :
    Except String LanceDBMemory :=
  let _ := project_path
  if config.platform = "OpenAI" then
    .ok { db_name := ".mle"
          table_name := "memory"
          uri := ".mle"
          text_embedding := embed
          client := store }
  else .error "NotImplementedError"

/-- Model of `if isinstance(texts, str): texts = (texts, )`. -/
def normalizeTexts : TextsArg → List String
  | .str s => [s]
  | .list l => l

/-- The metadata normalisation block of `add`: `None` becomes a list of
`None`s matching `texts`, a bare dict becomes a one-element sequence, and a
list must match `texts` in length or `assert` fails. -/
def normalizeMeta (texts : List String) :
    Option MetaArg → Except String (List (Option MetaDict))
  | Option.none => .ok (List.replicate texts.length Option.none)
  | some (.dict d) => .ok [some d]
  | some (.list l) =>
      if texts.length = l.length then .ok l else .error "AssertionError"

/-- Python truthiness of the optional `table_name` argument
(`table_name or self.table_name`). -/
def tableOrDefault (m : LanceDBMemory) : Option String → String
  | some t => if t ≠ "" then t else m.table_name
  | Option.none => m.table_name

/-- The `data` list of dicts built by `add`: one
`{vector, text, id, metadata}` row per position of
`zip(ids, texts, embeds, metadata)`. -/
def mkRows (ids texts : List String) (embeds : List (List Int))
    (metadata : List (Option MetaDict)) : List Rec :=
  (ids.zip (texts.zip (embeds.zip metadata))).map (fun q =>
    [("vector", Val.vec q.2.2.1),
     ("text", Val.str q.2.1),
     ("id", Val.str q.1),
     ("metadata", match q.2.2.2 with
       | some d => Val.dict d
       | Option.none => Val.none)])

/-- Model of `LanceDBMemory.add`.  Coerces `texts`/`metadata`, asserts matching
lengths, computes embeddings, resolves table name and ids (`ids or`
generates UUIDs, so an empty list also triggers generation), builds the
`{vector, text, id, metadata}` rows, and creates the table on first write or
appends to it otherwise.  Returns the outcome (the id list, or the
assertion error), the resulting store, and the effect trace. -/
def add (m : LanceDBMemory) (texts : TextsArg) (metadata : Option MetaArg)
    (table_name : Option String) (ids : Option (List String)) (seed : Nat) :
    Except String (List String) × LanceClient × List Effect :=
  let texts' := normalizeTexts texts
  match normalizeMeta texts' metadata with
  | .error e => (.error e, m.client, [])
  | .ok metadata' =>
    let embeds := texts'.map m.text_embedding
    let tname := m.tableOrDefault table_name
    let ids' := resolveIds ids seed texts'.length
    let data := mkRows ids' texts' embeds metadata'
    if tname ∉ m.client.table_names then
      (.ok ids', m.client.create_table tname data,
        [Effect.embed texts', Effect.create_table tname])
    else
      (.ok ids', m.client.open_table_add tname data,
        [Effect.embed texts', Effect.add_rows tname])

/-- Model of `LanceDBMemory.delete`: removes the records matching `record_id` from
the named table (not the table itself). -/
def delete (m : LanceDBMemory) (record_id : String)
    (table_name : Option String) : Except String LanceClient :=
  m.client.table_delete_by_id (m.tableOrDefault table_name) record_id

/-- Model of `LanceDBMemory.drop`: drops the named table as a whole. -/
def drop (m : LanceDBMemory) (table_name : Option String) :
    Except String LanceClient :=
  m.client.drop_table (m.tableOrDefault table_name)

/-- Model of `LanceDBMemory.count`: `open_table(name).count_rows()`. -/
def count (m : LanceDBMemory) (table_name : Option String) :
    Except String Nat :=
  (m.client.open_table (m.tableOrDefault table_name)).map List.length

/-- Model of `LanceDBMemory.reset`: `self.drop()` — drops only the default table. -/
def reset (m : LanceDBMemory) : Except String LanceClient :=
  m.drop Option.none

end LanceDBMemory

/-! ## Spec-side formulations -/

/-- The concatenation, in yield order, of the content fields of a list of
chunks; an absent (`None`) content contributes nothing. -/
def contentConcat : List Chunk → String
  | [] => ""
  | c :: rest =>
      (match c.content with
        | some s => s
        | Option.none => "") ++ contentConcat rest

/-- The transcript alternates user/assistant entries: it is a sequence of
user/assistant pairs. -/
def userAssistantAlt : List Message → Bool
  | [] => true
  | [_] => false
  | u :: a :: rest =>
      u.role == "user" && a.role == "assistant" && userAssistantAlt rest

/-! ## Concrete inputs used by witnesses and counterexamples -/

def exConfigOpenAI : Config := ⟨"OpenAI", "sk-key"⟩

def exConfigOther : Config := ⟨"Ollama", ""⟩

/-- A concrete stand-in for the external embedding service. -/
def exEmbed : String → List Int := fun s => [Int.ofNat s.length]

/-- A fresh chroma store without the reset opt-in. -/
def exChromaStore : ChromaClient := ⟨[], false⟩

/-- A chroma store with the reset opt-in and one record. -/
def exChromaStoreReset : ChromaClient :=
  ⟨[("memory", ⟨ChromaEmbedding.default, [[("id", Val.str "a")]]⟩)], true⟩

def exChromaMem : ChromaDBMemory :=
  ChromaDBMemory.init "/proj" "text-embedding-ada-002" exConfigOther
    exChromaStore

def exChromaMemReset : ChromaDBMemory :=
  ChromaDBMemory.init "/proj" "text-embedding-ada-002" exConfigOther
    exChromaStoreReset

/-- A lance store holding the default table and a second table, one record
each. -/
def exLanceStoreTwo : LanceClient :=
  ⟨[("memory", [[("id", Val.str "a")]]), ("other", [[("id", Val.str "b")]])]⟩

/-- A lance store whose default table holds two records. -/
def exLanceStorePair : LanceClient :=
  ⟨[("memory", [[("id", Val.str "a")], [("id", Val.str "b")]])]⟩

def exLanceMem : LanceDBMemory :=
  { db_name := ".mle", table_name := "memory", uri := ".mle"
    text_embedding := exEmbed, client := ⟨[]⟩ }

def exLanceMemTwo : LanceDBMemory := { exLanceMem with client := exLanceStoreTwo }

def exLanceMemPair : LanceDBMemory := { exLanceMem with client := exLanceStorePair }

/-! ## Helper lemmas -/

theorem uuid4_injective : Function.Injective uuid4 := by
  intro a b h
  have hlen : (uuid4 a).length = (uuid4 b).length := by rw [h]
  simpa [uuid4, String.length_append, String.length] using hlen

theorem genUUIDs_length (seed n : Nat) : (genUUIDs seed n).length = n := by
  simp [genUUIDs]

theorem genUUIDs_nodup (seed n : Nat) : (genUUIDs seed n).Nodup := by
  refine List.Nodup.map ?_ (List.nodup_range n)
  intro a b h
  have := uuid4_injective h
  omega

theorem accumText_eq (l : List Chunk) (t : String) :
    Chat.accumText l t = t ++ contentConcat l := by
  induction l generalizing t with
  | nil => simp [Chat.accumText, contentConcat]
  | cons c rest ih =>
    cases hc : c.content with
    | none => simp [Chat.accumText, contentConcat, hc, ih, String.append_assoc]
    | some s =>
      by_cases hs : s = "" <;>
        simp [Chat.accumText, contentConcat, hc, hs, ih, String.append_assoc]

theorem alt_append_pair :
    ∀ (h : List Message), userAssistantAlt h = true →
      ∀ u a : Message, u.role = "user" → a.role = "assistant" →
        userAssistantAlt (h ++ [u, a]) = true
  | [], _, u, a, hu, ha => by simp [userAssistantAlt, hu, ha]
  | [x], hh, _, _, _, _ => by simp [userAssistantAlt] at hh
  | x :: y :: rest, hh, u, a, hu, ha => by
      simp only [userAssistantAlt, Bool.and_eq_true, beq_iff_eq] at hh
      simp only [List.cons_append, userAssistantAlt, Bool.and_eq_true,
        beq_iff_eq]
      exact ⟨hh.1, alt_append_pair rest hh.2 u a hu ha⟩

theorem alookup_cons_eq {α : Type} (t k : String) (v : α)
    (rest : List (String × α)) (h : t = k) :
    alookup t ((k, v) :: rest) = some v := by
  simp [alookup, h]

theorem alookup_cons_ne {α : Type} (t k : String) (v : α)
    (rest : List (String × α)) (h : t ≠ k) :
    alookup t ((k, v) :: rest) = alookup t rest := by
  simp [alookup, h]

theorem alookup_map_update {α : Type} (n t : String) (f : α → α)
    (l : List (String × α)) :
    alookup t (l.map (fun p => if p.1 = n then (p.1, f p.2) else p))
      = if t = n then (alookup t l).map f else alookup t l := by
  induction l with
  | nil => simp [alookup]
  | cons p rest ih =>
    obtain ⟨k, v⟩ := p
    rw [List.map_cons]
    by_cases hkn : k = n
    · have hhead : (if (k, v).1 = n then ((k, v).1, f (k, v).2) else (k, v))
          = (k, f v) := by
        simp [hkn]
      rw [hhead]
      by_cases htk : t = k
      · rw [alookup_cons_eq _ _ _ _ htk, alookup_cons_eq _ _ _ _ htk,
          if_pos (htk.trans hkn)]
        rfl
      · rw [alookup_cons_ne _ _ _ _ htk, alookup_cons_ne _ _ _ _ htk]
        exact ih
    · have hhead : (if (k, v).1 = n then ((k, v).1, f (k, v).2) else (k, v))
          = (k, v) := by
        simp [hkn]
      rw [hhead]
      by_cases htk : t = k
      · have htn : t ≠ n := fun hx => hkn (htk.symm.trans hx)
        rw [alookup_cons_eq _ _ _ _ htk, alookup_cons_eq _ _ _ _ htk,
          if_neg htn]
      · rw [alookup_cons_ne _ _ _ _ htk, alookup_cons_ne _ _ _ _ htk]
        exact ih

theorem alookup_map_addrecords (n t : String) (newRecs : List Rec)
    (l : List (String × ChromaCollection)) :
    alookup t (l.map (fun p => if p.1 = n then
        (p.1, { p.2 with records := p.2.records ++ newRecs }) else p))
      = if t = n
        then (alookup t l).map
          (fun c => { c with records := c.records ++ newRecs })
        else alookup t l := by
  induction l with
  | nil => simp [alookup]
  | cons p rest ih =>
    obtain ⟨k, v⟩ := p
    rw [List.map_cons]
    by_cases hkn : k = n
    · have hhead : (if (k, v).1 = n then
          ((k, v).1, { (k, v).2 with records := (k, v).2.records ++ newRecs })
          else (k, v)) = (k, { v with records := v.records ++ newRecs }) := by
        simp [hkn]
      rw [hhead]
      by_cases htk : t = k
      · rw [alookup_cons_eq _ _ _ _ htk, alookup_cons_eq _ _ _ _ htk,
          if_pos (htk.trans hkn)]
        rfl
      · rw [alookup_cons_ne _ _ _ _ htk, alookup_cons_ne _ _ _ _ htk]
        exact ih
    · have hhead : (if (k, v).1 = n then
          ((k, v).1, { (k, v).2 with records := (k, v).2.records ++ newRecs })
          else (k, v)) = (k, v) := by
        simp [hkn]
      rw [hhead]
      by_cases htk : t = k
      · have htn : t ≠ n := fun hx => hkn (htk.symm.trans hx)
        rw [alookup_cons_eq _ _ _ _ htk, alookup_cons_eq _ _ _ _ htk,
          if_neg htn]
      · rw [alookup_cons_ne _ _ _ _ htk, alookup_cons_ne _ _ _ _ htk]
        exact ih

theorem alookup_filter_ne {α : Type} (n t : String) (h : t ≠ n)
    (l : List (String × α)) :
    alookup t (l.filter (fun p => p.1 ≠ n)) = alookup t l := by
  induction l with
  | nil => rfl
  | cons p rest ih =>
    obtain ⟨k, v⟩ := p
    rw [List.filter_cons]
    by_cases hkn : k = n
    · rw [if_neg (by simp [hkn]), ih,
        alookup_cons_ne _ _ _ _ (fun hx => h (hx.trans hkn))]
    · rw [if_pos (by simp [hkn])]
      by_cases htk : t = k
      · rw [alookup_cons_eq _ _ _ _ htk, alookup_cons_eq _ _ _ _ htk]
      · rw [alookup_cons_ne _ _ _ _ htk, alookup_cons_ne _ _ _ _ htk]
        exact ih

theorem alookup_filter_self {α : Type} (n : String)
    (l : List (String × α)) :
    alookup n (l.filter (fun p => p.1 ≠ n)) = Option.none := by
  induction l with
  | nil => rfl
  | cons p rest ih =>
    obtain ⟨k, v⟩ := p
    rw [List.filter_cons]
    by_cases hkn : k = n
    · rw [if_neg (by simp [hkn])]
      exact ih
    · rw [if_pos (by simp [hkn]),
        alookup_cons_ne _ _ _ _ (fun hx => hkn hx.symm)]
      exact ih

theorem alookup_append_self {α : Type} (n : String) (x : α)
    (l : List (String × α)) :
    (alookup n (l ++ [(n, x)])).isSome = true := by
  induction l with
  | nil => simp [alookup]
  | cons p rest ih =>
    obtain ⟨k, v⟩ := p
    by_cases h : n = k
    · rw [List.cons_append, alookup_cons_eq _ _ _ _ h]
      rfl
    · rw [List.cons_append, alookup_cons_ne _ _ _ _ h]
      exact ih

theorem alookup_append_right_self {α : Type} (n : String) (x : α)
    (l : List (String × α)) (h : alookup n l = Option.none) :
    alookup n (l ++ [(n, x)]) = some x := by
  induction l with
  | nil => simp [alookup]
  | cons p rest ih =>
    obtain ⟨k, v⟩ := p
    by_cases hk : n = k
    · rw [alookup_cons_eq _ _ _ _ hk] at h
      cases h
    · rw [List.cons_append, alookup_cons_ne _ _ _ _ hk]
      exact ih (by rwa [alookup_cons_ne _ _ _ _ hk] at h)

theorem alookup_eq_none_of_not_mem {α : Type} (n : String)
    (l : List (String × α)) (h : n ∉ l.map (fun p => p.1)) :
    alookup n l = Option.none := by
  induction l with
  | nil => rfl
  | cons p rest ih =>
    obtain ⟨k, v⟩ := p
    simp only [List.map_cons, List.mem_cons, not_or] at h
    rw [alookup_cons_ne _ _ _ _ h.1]
    exact ih h.2

theorem resolveIds_none (s n : Nat) :
    resolveIds Option.none s n = genUUIDs s n := rfl

theorem resolveIds_empty (s n : Nat) :
    resolveIds (some []) s n = genUUIDs s n := by
  simp [resolveIds]

theorem resolveIds_supplied (l : List String) (h : l ≠ []) (s n : Nat) :
    resolveIds (some l) s n = l := by
  simp [resolveIds, h]

theorem add_query_returns_resolved (m : ChromaDBMemory)
    (queries : List QueryItem) (coll : Option String)
    (idx : Option (List String)) (now : String) (s : Nat)
    (hlen : (resolveIds idx s queries.length).length = queries.length) :
    (ChromaDBMemory.add_query m queries coll idx now s).map (fun r => r.1)
      = .ok (resolveIds idx s queries.length) := by
  simp only [ChromaDBMemory.add_query, ChromaClient.collection_add]
  rw [if_pos ⟨by simp [hlen], by simp [hlen]⟩]
  rfl

theorem add_returns_resolved (m : LanceDBMemory) (tx : TextsArg)
    (md : Option MetaArg) (tbl : Option String) (ids : Option (List String))
    (s : Nat) (mds : List (Option MetaDict))
    (hmd : LanceDBMemory.normalizeMeta (LanceDBMemory.normalizeTexts tx) md
      = .ok mds) :
    (LanceDBMemory.add m tx md tbl ids s).1
      = .ok (resolveIds ids s (LanceDBMemory.normalizeTexts tx).length) := by
  simp only [LanceDBMemory.add, hmd]
  split <;> rfl

/-! ## Claims -/

/-- C1 counterexample: supplying the explicit id list `[]` together with one
query makes `add_query` return a freshly generated one-element id list, not
the supplied list — so a supplied id list is not always returned
unchanged. -/
theorem c1_counterexample :
    (ChromaDBMemory.add_query exChromaMem [⟨"q", "r"⟩] Option.none (some [])
        "t0" 0).map (fun r => r.1) = .ok ["uuid-"]
    ∧ (["uuid-"] : List String) ≠ [] := by
  exact ⟨by rfl, by decide⟩

/-- C1 (amended): with `N` input items and a `None` or empty id argument,
both add operations generate `N` pairwise-distinct UUID strings and return
exactly that list; a supplied non-empty id list (of matching length, so the
underlying chroma client accepts the call) is returned unchanged. -/
theorem c1_add_generates_unique_ids
    (mC : ChromaDBMemory) (mL : LanceDBMemory)
    (queries : List QueryItem) (tx : TextsArg) (md : Option MetaArg)
    (coll tbl : Option String) (now : String) (sC sL : Nat)
    (idxC idsL : List String) (mds : List (Option MetaDict))
    (hC : idxC ≠ []) (hCl : idxC.length = queries.length) (hL : idsL ≠ [])
    (hmd : LanceDBMemory.normalizeMeta (LanceDBMemory.normalizeTexts tx) md
      = .ok mds) :
    ((ChromaDBMemory.add_query mC queries coll Option.none now sC).map
        (fun r => r.1) = .ok (genUUIDs sC queries.length)
      ∧ (ChromaDBMemory.add_query mC queries coll (some []) now sC).map
        (fun r => r.1) = .ok (genUUIDs sC queries.length)
      ∧ (ChromaDBMemory.add_query mC queries coll (some idxC) now sC).map
        (fun r => r.1) = .ok idxC)
    ∧ ((LanceDBMemory.add mL tx md tbl Option.none sL).1
        = .ok (genUUIDs sL (LanceDBMemory.normalizeTexts tx).length)
      ∧ (LanceDBMemory.add mL tx md tbl (some []) sL).1
        = .ok (genUUIDs sL (LanceDBMemory.normalizeTexts tx).length)
      ∧ (LanceDBMemory.add mL tx md tbl (some idsL) sL).1 = .ok idsL)
    ∧ (genUUIDs sC queries.length).length = queries.length
    ∧ (genUUIDs sC queries.length).Nodup
    ∧ (genUUIDs sL (LanceDBMemory.normalizeTexts tx).length).length
        = (LanceDBMemory.normalizeTexts tx).length
    ∧ (genUUIDs sL (LanceDBMemory.normalizeTexts tx).length).Nodup := by
  refine ⟨⟨?_, ?_, ?_⟩, ⟨?_, ?_, ?_⟩, genUUIDs_length _ _, genUUIDs_nodup _ _,
    genUUIDs_length _ _, genUUIDs_nodup _ _⟩
  · have h := add_query_returns_resolved mC queries coll Option.none now sC
      (by rw [resolveIds_none]; exact genUUIDs_length _ _)
    rwa [resolveIds_none] at h
  · have h := add_query_returns_resolved mC queries coll (some []) now sC
      (by rw [resolveIds_empty]; exact genUUIDs_length _ _)
    rwa [resolveIds_empty] at h
  · have h := add_query_returns_resolved mC queries coll (some idxC) now sC
      (by rw [resolveIds_supplied _ hC]; exact hCl)
    rwa [resolveIds_supplied _ hC] at h
  · have h := add_returns_resolved mL tx md tbl Option.none sL mds hmd
    rwa [resolveIds_none] at h
  · have h := add_returns_resolved mL tx md tbl (some []) sL mds hmd
    rwa [resolveIds_empty] at h
  · have h := add_returns_resolved mL tx md tbl (some idsL) sL mds hmd
    rwa [resolveIds_supplied _ hL] at h

/-- C1 witness: one query and one text, supplied non-empty id lists of
matching length. -/
theorem c1_add_generates_unique_ids_witness :
    (["x"] : List String) ≠ []
    ∧ (["x"] : List String).length = [(⟨"q", "r"⟩ : QueryItem)].length
    ∧ (["y"] : List String) ≠ []
    ∧ LanceDBMemory.normalizeMeta
        (LanceDBMemory.normalizeTexts (.list ["a"])) Option.none
        = .ok [Option.none]
    ∧ (ChromaDBMemory.add_query exChromaMem [⟨"q", "r"⟩] Option.none
        (some ["x"]) "t0" 0).map (fun r => r.1) = .ok ["x"]
    ∧ (LanceDBMemory.add exLanceMem (.list ["a"]) Option.none Option.none
        (some ["y"]) 0).1 = .ok ["y"]
    ∧ (genUUIDs 0 2).Nodup := by
  have h := c1_add_generates_unique_ids exChromaMem exLanceMem
    [⟨"q", "r"⟩] (.list ["a"]) Option.none Option.none Option.none "t0" 0 0
    ["x"] ["y"] [Option.none] (by decide) (by decide) (by decide) (by rfl)
  exact ⟨by decide, by decide, by decide, by rfl, h.1.2.2, h.2.1.2.2,
    genUUIDs_nodup 0 2⟩

/-- C3 counterexample: on a LanceDB store holding a second table `other`,
reset succeeds yet `other` still holds its record afterwards — count on it
returns 1, not 0. -/
theorem c3_counterexample :
    (LanceDBMemory.reset exLanceMemTwo).map (fun c =>
        LanceDBMemory.count { exLanceMemTwo with client := c } (some "other"))
      = .ok (.ok 1) := by
  rfl

/-- C3 (amended): ChromaDB reset without the opt-in is rejected by the
client; with it, every collection is removed, so the store holds no records.
LanceDB reset drops only the default table: it disappears, while every other
table keeps exactly its records. -/
theorem c3_reset_behaviour
    (mC mC' : ChromaDBMemory) (mL : LanceDBMemory) (t : String)
    (hno : mC.client.allow_reset = false)
    (hyes : mC'.client.allow_reset = true)
    (hmem : (alookup mL.table_name mL.client.tables).isSome = true)
    (ht : t ≠ mL.table_name) :
    ChromaDBMemory.reset mC = .error "ValueError: reset is disabled by config"
    ∧ ChromaDBMemory.reset mC'
        = .ok { mC' with client := { mC'.client with collections := [] } }
    ∧ LanceDBMemory.reset mL
        = .ok ⟨mL.client.tables.filter (fun p => p.1 ≠ mL.table_name)⟩
    ∧ alookup mL.table_name
        (mL.client.tables.filter (fun p => p.1 ≠ mL.table_name)) = Option.none
    ∧ alookup t (mL.client.tables.filter (fun p => p.1 ≠ mL.table_name))
        = alookup t mL.client.tables := by
  refine ⟨?_, ?_, ?_, alookup_filter_self _ _, alookup_filter_ne _ _ ht _⟩
  · simp [ChromaDBMemory.reset, ChromaClient.reset, hno, Except.map]
  · simp [ChromaDBMemory.reset, ChromaClient.reset, hyes, Except.map]
  · simp [LanceDBMemory.reset, LanceDBMemory.drop, LanceClient.drop_table,
      LanceDBMemory.tableOrDefault, hmem, Except.map]

/-- C3 witness: a chroma client without the opt-in, one with it, and the
two-table lance store. -/
theorem c3_reset_behaviour_witness :
    exChromaMem.client.allow_reset = false
    ∧ exChromaMemReset.client.allow_reset = true
    ∧ (alookup exLanceMemTwo.table_name exLanceMemTwo.client.tables).isSome
        = true
    ∧ ("other" : String) ≠ exLanceMemTwo.table_name
    ∧ ChromaDBMemory.reset exChromaMem
        = .error "ValueError: reset is disabled by config"
    ∧ LanceDBMemory.reset exLanceMemTwo
        = .ok ⟨[("other", [[("id", Val.str "b")]])]⟩ := by
  have h := c3_reset_behaviour exChromaMem exChromaMemReset exLanceMemTwo
    "other" (by rfl) (by rfl) (by rfl) (by decide)
  exact ⟨by rfl, by rfl, by rfl, by decide, h.1, by rfl⟩

/-- C4 counterexample: `LanceDBMemory.delete` with a record id removes only
the matching record; the default table itself survives, still holding the
other record. -/
theorem c4_counterexample :
    LanceDBMemory.delete exLanceMemPair "a" Option.none
      = .ok ⟨[("memory", [[("id", Val.str "b")]])]⟩
    ∧ LanceClient.table_names ⟨[("memory", [[("id", Val.str "b")]])]⟩
      = ["memory"] := by
  exact ⟨by rfl, by rfl⟩

/-- C4 (amended): `ChromaDBMemory.delete` and `LanceDBMemory.drop` remove
the named collection/table as a whole, defaulting to the backend's fixed
name when none is given; `LanceDBMemory.delete` instead removes from the
named table exactly the records whose id matches, keeping the table
itself. -/
theorem c4_delete_drop
    (mC : ChromaDBMemory) (mL : LanceDBMemory) (nameC nameL rid : String)
    (rowsL : List Rec)
    (hC : (alookup nameC mC.client.collections).isSome = true)
    (hCn : nameC ≠ "") (hLn : nameL ≠ "")
    (hrows : alookup nameL mL.client.tables = some rowsL) :
    (∃ m', ChromaDBMemory.delete mC (some nameC) = .ok m'
       ∧ alookup nameC m'.client.collections = Option.none)
    ∧ ChromaDBMemory.delete mC Option.none
        = ChromaDBMemory.delete mC (some mC.collection_name)
    ∧ (∃ c', LanceDBMemory.drop mL (some nameL) = .ok c'
       ∧ alookup nameL c'.tables = Option.none)
    ∧ LanceDBMemory.drop mL Option.none
        = LanceDBMemory.drop mL (some mL.table_name)
    ∧ (∃ c', LanceDBMemory.delete mL rid (some nameL) = .ok c'
       ∧ alookup nameL c'.tables = some (rowsL.filter
           (fun r => alookup "id" r ≠ some (Val.str rid)))) := by
  refine ⟨?_, ?_, ?_, ?_, ?_⟩
  · refine ⟨{ mC with client := { mC.client with
        collections := mC.client.collections.filter
          (fun p => p.1 ≠ nameC) } }, ?_, alookup_filter_self _ _⟩
    simp [ChromaDBMemory.delete, ChromaDBMemory.collOrDefault, hCn,
      ChromaClient.delete_collection, hC, Except.map]
  · by_cases h : mC.collection_name = "" <;>
      simp [ChromaDBMemory.delete, ChromaDBMemory.collOrDefault, h]
  · refine ⟨⟨mL.client.tables.filter (fun p => p.1 ≠ nameL)⟩, ?_,
      alookup_filter_self _ _⟩
    simp [LanceDBMemory.drop, LanceDBMemory.tableOrDefault, hLn,
      LanceClient.drop_table, hrows, Except.map]
  · by_cases h : mL.table_name = "" <;>
      simp [LanceDBMemory.drop, LanceDBMemory.tableOrDefault, h]
  · refine ⟨⟨mL.client.tables.map (fun p =>
      if p.1 = nameL then
        (p.1, p.2.filter (fun r => alookup "id" r ≠ some (Val.str rid)))
      else p)⟩, ?_, ?_⟩
    · simp [LanceDBMemory.delete, LanceDBMemory.tableOrDefault, hLn,
        LanceClient.table_delete_by_id, hrows, Except.map]
    · show alookup nameL (mL.client.tables.map (fun p =>
        if p.1 = nameL then
          (p.1, p.2.filter (fun r => alookup "id" r ≠ some (Val.str rid)))
        else p)) = _
      rw [alookup_map_update nameL nameL
        (List.filter (fun r => alookup "id" r ≠ some (Val.str rid)))
        mL.client.tables, if_pos rfl, hrows]
      rfl

/-- C4 witness: chroma store holding `memory`, lance store whose `memory`
table holds two records, one of which is deleted by id. -/
theorem c4_delete_drop_witness :
    (alookup "memory" exChromaMem.client.collections).isSome = true
    ∧ ("memory" : String) ≠ ""
    ∧ alookup "memory" exLanceMemPair.client.tables
        = some [[("id", Val.str "a")], [("id", Val.str "b")]]
    ∧ (∃ c', LanceDBMemory.delete exLanceMemPair "a" (some "memory") = .ok c'
       ∧ alookup "memory" c'.tables
           = some ([[("id", Val.str "a")], [("id", Val.str "b")]].filter
               (fun r => alookup "id" r ≠ some (Val.str "a")))) := by
  have h := c4_delete_drop exChromaMem exLanceMemPair "memory" "memory" "a"
    [[("id", Val.str "a")], [("id", Val.str "b")]]
    (by rfl) (by decide) (by decide) (by rfl)
  exact ⟨by rfl, by decide, by rfl, h.2.2.2.2⟩

/-- C5: the ChromaDB backend persists under `project_path/.mle` as claimed,
but the LanceDB backend connects at the relative uri `.mle` — the same uri
for every `project_path`, not a location under the project path. -/
theorem c5_lance_uri_ignores_project_path :
    (LanceDBMemory.init "/proj" exConfigOpenAI exEmbed ⟨[]⟩).map
        (fun m => m.uri) = .ok ".mle"
    ∧ (LanceDBMemory.init "/other" exConfigOpenAI exEmbed ⟨[]⟩).map
        (fun m => m.uri) = .ok ".mle"
    ∧ osPathJoin "/proj" ".mle" = "/proj/.mle"
    ∧ (".mle" : String) ≠ "/proj/.mle"
    ∧ (ChromaDBMemory.init "/proj" "text-embedding-ada-002" exConfigOpenAI
        exChromaStore).persist_path = "/proj/.mle" := by
  exact ⟨by rfl, by rfl, by rfl, by decide, by rfl⟩

/-- C6 counterexample: constructing `ChromaDBMemory` on a store with no
collections eagerly creates the default collection — construction does not
leave the set of existing collections unchanged. -/
theorem c6_counterexample :
    alookup "memory" exChromaStore.collections = Option.none
    ∧ (alookup "memory" exChromaMem.client.collections).isSome = true := by
  exact ⟨by rfl, by rfl⟩

/-- C6 (amended): LanceDB tables are created lazily — construction leaves
the store untouched and the first add targeting a missing table creates it —
while ChromaDB creates the default collection eagerly at construction. -/
theorem c6_lazy_table_creation
    (p em : String) (cfg : Config) (embed : String → List Int)
    (store : LanceClient) (storeC : ChromaClient)
    (mL : LanceDBMemory) (tx : TextsArg) (md : Option MetaArg)
    (tbl : Option String) (ids : Option (List String)) (s : Nat)
    (mds : List (Option MetaDict))
    (hcfg : cfg.platform = "OpenAI")
    (hmd : LanceDBMemory.normalizeMeta (LanceDBMemory.normalizeTexts tx) md
      = .ok mds)
    (habs : mL.tableOrDefault tbl ∉ mL.client.table_names) :
    (LanceDBMemory.init p cfg embed store).map (fun m => m.client) = .ok store
    ∧ (LanceDBMemory.add mL tx md tbl ids s).2.1.table_names
        = mL.client.table_names ++ [mL.tableOrDefault tbl]
    ∧ (alookup "memory"
        (ChromaDBMemory.init p em cfg storeC).client.collections).isSome
        = true := by
  refine ⟨?_, ?_, ?_⟩
  · simp [LanceDBMemory.init, hcfg, Except.map]
  · simp only [LanceDBMemory.add, hmd]
    rw [if_pos habs]
    simp [LanceClient.create_table, LanceClient.table_names]
  · simp only [ChromaDBMemory.init, ChromaClient.get_or_create_collection]
    by_cases h : (alookup "memory" storeC.collections).isSome = true
    · rw [if_pos h]
      exact h
    · rw [if_neg h]
      exact alookup_append_self _ _ _

/-- C6 witness: an empty lance store, one text added to the missing default
table, and an empty chroma store. -/
theorem c6_lazy_table_creation_witness :
    exConfigOpenAI.platform = "OpenAI"
    ∧ LanceDBMemory.normalizeMeta
        (LanceDBMemory.normalizeTexts (.list ["a"])) Option.none
        = .ok [Option.none]
    ∧ exLanceMem.tableOrDefault Option.none ∉ exLanceMem.client.table_names
    ∧ (LanceDBMemory.add exLanceMem (.list ["a"]) Option.none Option.none
        Option.none 0).2.1.table_names
        = exLanceMem.client.table_names ++ ["memory"]
    ∧ (alookup "memory" (ChromaDBMemory.init "/proj" "text-embedding-ada-002"
        exConfigOpenAI exChromaStore).client.collections).isSome = true := by
  have h := c6_lazy_table_creation "/proj" "text-embedding-ada-002"
    exConfigOpenAI exEmbed ⟨[]⟩ exChromaStore exLanceMem (.list ["a"])
    Option.none Option.none Option.none 0 [Option.none]
    (by rfl) (by rfl) (by decide)
  exact ⟨by rfl, by rfl, by decide, h.2.1, h.2.2⟩

/-- C7 counterexample: the record stored by `LanceDBMemory.add` carries
exactly the fields vector, text, id and metadata — no `created_at`
timestamp. -/
theorem c7_counterexample :
    (LanceDBMemory.add exLanceMem (.list ["hello"]) Option.none Option.none
        Option.none 0).2.1
      = ⟨[("memory",
          [[("vector", Val.vec [5]), ("text", Val.str "hello"),
            ("id", Val.str "uuid-"), ("metadata", Val.none)]])]⟩
    ∧ alookup "created_at"
        [("vector", Val.vec [5]), ("text", Val.str "hello"),
         ("id", Val.str "uuid-"), ("metadata", Val.none)] = Option.none := by
  exact ⟨by rfl, by rfl⟩

/-- C7 (amended): every record stored by `ChromaDBMemory.add_query` carries
id, document and a metadata dict holding the response and a `created_at`
timestamp; every record stored by `LanceDBMemory.add` carries exactly the
fields vector, text, id and metadata — no `created_at`. -/
theorem c7_stored_record_fields
    (mC : ChromaDBMemory) (queries : List QueryItem) (coll : Option String)
    (idx : Option (List String)) (now : String) (s : Nat)
    (col : ChromaCollection)
    (hcol : alookup (mC.collOrDefault coll)
        (mC.client.get_or_create_collection (mC.collOrDefault coll)
          ChromaEmbedding.default).collections = some col)
    (hlen : (resolveIds idx s queries.length).length = queries.length)
    (mL : LanceDBMemory) (tx : TextsArg) (md : Option MetaArg)
    (tbl : Option String) (idsL : Option (List String)) (sL : Nat)
    (mds : List (Option MetaDict))
    (hmd : LanceDBMemory.normalizeMeta (LanceDBMemory.normalizeTexts tx) md
      = .ok mds)
    (habs : mL.tableOrDefault tbl ∉ mL.client.table_names) :
    (∃ m', ChromaDBMemory.add_query mC queries coll idx now s
        = .ok (resolveIds idx s queries.length, m')
      ∧ alookup (mC.collOrDefault coll) m'.client.collections
        = some { col with records := (col.records
            ++ ChromaClient.mkRecords (queries.map (fun q => q.query))
                (queries.map (fun q =>
                  [("response", q.response), ("created_at", now)]))
                (resolveIds idx s queries.length)) })
    ∧ (∀ r ∈ ChromaClient.mkRecords (queries.map (fun q => q.query))
          (queries.map (fun q =>
            [("response", q.response), ("created_at", now)]))
          (resolveIds idx s queries.length),
        (alookup "id" r).isSome = true
        ∧ (alookup "document" r).isSome = true
        ∧ ∃ d, alookup "metadata" r = some (Val.dict d)
            ∧ (alookup "response" d).isSome = true
            ∧ alookup "created_at" d = some now)
    ∧ alookup (mL.tableOrDefault tbl)
        (LanceDBMemory.add mL tx md tbl idsL sL).2.1.tables
        = some (LanceDBMemory.mkRows
            (resolveIds idsL sL (LanceDBMemory.normalizeTexts tx).length)
            (LanceDBMemory.normalizeTexts tx)
            ((LanceDBMemory.normalizeTexts tx).map mL.text_embedding) mds)
    ∧ (∀ ids2 texts2 embeds2 mds2,
        ∀ r ∈ LanceDBMemory.mkRows ids2 texts2 embeds2 mds2,
          r.map (fun p => p.1) = ["vector", "text", "id", "metadata"]
          ∧ alookup "created_at" r = Option.none) := by
  refine ⟨?_, ?_, ?_, ?_⟩
  · refine ⟨{ mC with client := { mC.client.get_or_create_collection
        (mC.collOrDefault coll) ChromaEmbedding.default with
        collections := (mC.client.get_or_create_collection
          (mC.collOrDefault coll) ChromaEmbedding.default).collections.map
          (fun p => if p.1 = mC.collOrDefault coll then
            (p.1, { p.2 with records := (p.2.records
              ++ ChromaClient.mkRecords (queries.map (fun q => q.query))
                  (queries.map (fun q =>
                    [("response", q.response), ("created_at", now)]))
                  (resolveIds idx s queries.length)) })
            else p) } }, ?_, ?_⟩
    · simp only [ChromaDBMemory.add_query, ChromaClient.collection_add]
      rw [if_pos ⟨by simp [hlen], by simp [hlen]⟩]
      rfl
    · rw [alookup_map_addrecords (mC.collOrDefault coll)
        (mC.collOrDefault coll)
        (ChromaClient.mkRecords (queries.map (fun q => q.query))
          (queries.map (fun q =>
            [("response", q.response), ("created_at", now)]))
          (resolveIds idx s queries.length)), if_pos rfl, hcol]
      rfl
  · intro r hr
    simp only [ChromaClient.mkRecords, List.mem_map] at hr
    obtain ⟨⟨i, doc, mt⟩, hq, rfl⟩ := hr
    have h2 := (List.of_mem_zip hq).2
    have h3 := (List.of_mem_zip h2).2
    obtain ⟨qq, hqq, rfl⟩ := List.mem_map.mp h3
    exact ⟨by rfl, by rfl, ⟨_, by rfl, by rfl, by rfl⟩⟩
  · simp only [LanceDBMemory.add, hmd]
    rw [if_pos habs]
    show alookup (mL.tableOrDefault tbl)
      (mL.client.tables ++ [(mL.tableOrDefault tbl, _)]) = _
    rw [alookup_append_right_self _ _ _
      (alookup_eq_none_of_not_mem _ _ habs)]
  · intro ids2 texts2 embeds2 mds2 r hr
    simp only [LanceDBMemory.mkRows, List.mem_map] at hr
    obtain ⟨⟨i, t, e, mt⟩, hq, rfl⟩ := hr
    exact ⟨by rfl, by rfl⟩

/-- C7 witness: one query into the default chroma collection, one text into
the missing default lance table. -/
theorem c7_stored_record_fields_witness :
    alookup (exChromaMem.collOrDefault Option.none)
        (exChromaMem.client.get_or_create_collection
          (exChromaMem.collOrDefault Option.none)
          ChromaEmbedding.default).collections
        = some ⟨ChromaEmbedding.default, []⟩
    ∧ (resolveIds Option.none 0 [(⟨"q", "r"⟩ : QueryItem)].length).length
        = [(⟨"q", "r"⟩ : QueryItem)].length
    ∧ LanceDBMemory.normalizeMeta
        (LanceDBMemory.normalizeTexts (.list ["hi"])) Option.none
        = .ok [Option.none]
    ∧ exLanceMem.tableOrDefault Option.none ∉ exLanceMem.client.table_names
    ∧ (∀ r ∈ ChromaClient.mkRecords
          ([(⟨"q", "r"⟩ : QueryItem)].map (fun q => q.query))
          ([(⟨"q", "r"⟩ : QueryItem)].map (fun q =>
            [("response", q.response), ("created_at", "t0")]))
          (resolveIds Option.none 0 [(⟨"q", "r"⟩ : QueryItem)].length),
        (alookup "id" r).isSome = true
        ∧ (alookup "document" r).isSome = true
        ∧ ∃ d, alookup "metadata" r = some (Val.dict d)
            ∧ (alookup "response" d).isSome = true
            ∧ alookup "created_at" d = some "t0") := by
  have h := c7_stored_record_fields exChromaMem [⟨"q", "r"⟩] Option.none
    Option.none "t0" 0 ⟨ChromaEmbedding.default, []⟩ (by rfl) (by rfl)
    exLanceMem (.list ["hi"]) Option.none Option.none Option.none 0
    [Option.none] (by rfl) (by decide)
  exact ⟨by rfl, by rfl, by rfl, by decide, h.2.1⟩

/-- C8 counterexample: constructing `LanceDBMemory` under a non-OpenAI
platform does not succeed with a default embedding — it raises
`NotImplementedError`. -/
theorem c8_counterexample :
    LanceDBMemory.init "/proj" exConfigOther exEmbed ⟨[]⟩
      = .error "NotImplementedError" := by
  rfl

/-- C8 (amended): ChromaDB construction succeeds for every configuration,
attaching the hosted OpenAI embedding function exactly when the platform is
OpenAI and the store default otherwise; LanceDB construction succeeds only
when the platform is OpenAI (attaching the OpenAI embedding) and raises
`NotImplementedError` otherwise. -/
theorem c8_embedding_selection
    (p em : String) (cfg cfg' : Config) (storeC : ChromaClient)
    (embed : String → List Int) (storeL : LanceClient)
    (habs : alookup "memory" storeC.collections = Option.none)
    (hyes : cfg.platform = "OpenAI") (hno : cfg'.platform ≠ "OpenAI") :
    alookup "memory" (ChromaDBMemory.init p em cfg storeC).client.collections
        = some ⟨ChromaEmbedding.openAI em cfg.api_key, []⟩
    ∧ alookup "memory"
        (ChromaDBMemory.init p em cfg' storeC).client.collections
        = some ⟨ChromaEmbedding.default, []⟩
    ∧ LanceDBMemory.init p cfg embed storeL
        = .ok { db_name := ".mle", table_name := "memory", uri := ".mle",
                text_embedding := embed, client := storeL }
    ∧ LanceDBMemory.init p cfg' embed storeL
        = .error "NotImplementedError" := by
  refine ⟨?_, ?_, ?_, ?_⟩
  · simp only [ChromaDBMemory.init, ChromaClient.get_or_create_collection,
      hyes, if_true, if_pos rfl]
    rw [if_neg (by rw [habs]; exact Bool.false_ne_true ∘ id)]
    exact alookup_append_right_self _ _ _ habs
  · simp only [ChromaDBMemory.init, ChromaClient.get_or_create_collection,
      if_neg hno]
    rw [if_neg (by rw [habs]; exact Bool.false_ne_true ∘ id)]
    exact alookup_append_right_self _ _ _ habs
  · simp only [LanceDBMemory.init]
    rw [if_pos hyes]
  · simp only [LanceDBMemory.init]
    rw [if_neg hno]

/-- C8 witness: an empty chroma store, the OpenAI configuration and a
non-OpenAI configuration. -/
theorem c8_embedding_selection_witness :
    alookup "memory" exChromaStore.collections = Option.none
    ∧ exConfigOpenAI.platform = "OpenAI"
    ∧ exConfigOther.platform ≠ "OpenAI"
    ∧ alookup "memory" (ChromaDBMemory.init "/proj" "text-embedding-ada-002"
        exConfigOpenAI exChromaStore).client.collections
        = some ⟨ChromaEmbedding.openAI "text-embedding-ada-002" "sk-key", []⟩
    ∧ LanceDBMemory.init "/proj" exConfigOther exEmbed ⟨[]⟩
        = .error "NotImplementedError" := by
  have h := c8_embedding_selection "/proj" "text-embedding-ada-002"
    exConfigOpenAI exConfigOther exChromaStore exEmbed ⟨[]⟩
    (by rfl) (by rfl) (by decide)
  exact ⟨by rfl, by rfl, by decide, h.1, h.2.2.2⟩

/-- C9: a metadata list whose length differs from the texts fails the
`assert` — the call returns the assertion error with an empty effect trace
(no embedding computed, nothing written) and the store unchanged — while a
bare string `texts` or a bare dict `metadata` is coerced to a one-element
sequence instead. -/
theorem c9_assert_before_effects
    (m : LanceDBMemory) (tx : TextsArg) (l : List (Option MetaDict))
    (tbl : Option String) (ids : Option (List String)) (s : Nat)
    (str0 : String) (d : MetaDict) (ts : List String)
    (hlen : (LanceDBMemory.normalizeTexts tx).length ≠ l.length) :
    LanceDBMemory.add m tx (some (.list l)) tbl ids s
      = (.error "AssertionError", m.client, [])
    ∧ LanceDBMemory.normalizeTexts (.str str0) = [str0]
    ∧ LanceDBMemory.normalizeMeta ts (some (.dict d)) = .ok [some d] := by
  refine ⟨?_, rfl, rfl⟩
  simp only [LanceDBMemory.add, LanceDBMemory.normalizeMeta]
  rw [if_neg hlen]

/-- C9 witness: one text with an empty metadata list. -/
theorem c9_assert_before_effects_witness :
    (LanceDBMemory.normalizeTexts (.list ["a"])).length ≠ ([] : List (Option MetaDict)).length
    ∧ LanceDBMemory.add exLanceMem (.list ["a"]) (some (.list [])) Option.none
        Option.none 0 = (.error "AssertionError", exLanceMem.client, [])
    ∧ LanceDBMemory.normalizeTexts (.str "s") = ["s"]
    ∧ LanceDBMemory.normalizeMeta ["a"] (some (.dict [("k", "v")]))
        = .ok [some [("k", "v")]] := by
  have h := c9_assert_before_effects exLanceMem (.list ["a"]) [] Option.none
    Option.none 0 "s" [("k", "v")] ["a"] (by decide)
  exact ⟨by decide, h.1, h.2.1, h.2.2⟩

/-- C2: after `Chat.handle_streaming(prompt)` returns, the final entry of
`chat_history` is an assistant entry whose content equals the concatenation,
in yield order, of the content fields of the chunks yielded by
`chat_generator`. -/
theorem c2_final_entry_is_concat (history : List Message) (prompt : String)
    (script : Script) :
    (Chat.handle_streaming history prompt script).getLast?
      = some ⟨"assistant",
          contentConcat (Chat.chat_generator history prompt script).2⟩ := by
  simp [Chat.handle_streaming, accumText_eq, String.empty_append]

/-- C10: `Chat.handle_streaming` appends exactly a user entry holding the
prompt and then an assistant entry, whatever the script does — including a
completion failure after any prefix of chunks, whose exception the generator
catches, leaving the assistant entry holding the text accumulated so far
(the empty string when the stream failed before any content); hence an
alternating user/assistant transcript stays alternating. -/
theorem c10_two_entries_alternating (history : List Message) (prompt : String)
    (script : Script) (halt : userAssistantAlt history = true) :
    Chat.handle_streaming history prompt script
      = history ++ [⟨"user", prompt⟩,
          ⟨"assistant", contentConcat (script.chunks.filterMap id)⟩]
    ∧ userAssistantAlt (Chat.handle_streaming history prompt script) = true
    ∧ (∀ failure, Chat.handle_streaming history prompt ⟨[], failure⟩
        = history ++ [⟨"user", prompt⟩, ⟨"assistant", ""⟩]) := by
  refine ⟨?_, ?_, ?_⟩
  · simp [Chat.handle_streaming, Chat.chat_generator, accumText_eq,
      String.empty_append]
  · have h2 : Chat.handle_streaming history prompt script
        = history ++ [⟨"user", prompt⟩,
            ⟨"assistant", contentConcat (script.chunks.filterMap id)⟩] := by
      simp [Chat.handle_streaming, Chat.chat_generator, accumText_eq,
        String.empty_append]
    rw [h2]
    exact alt_append_pair history halt _ _ rfl rfl
  · intro failure
    simp [Chat.handle_streaming, Chat.chat_generator, Chat.accumText]

/-- C10 witness: a concrete alternating history, a stream that yields one
content chunk and then fails. -/
theorem c10_two_entries_alternating_witness :
    userAssistantAlt [⟨"user", "p0"⟩, ⟨"assistant", "r0"⟩] = true
    ∧ (Chat.handle_streaming [⟨"user", "p0"⟩, ⟨"assistant", "r0"⟩] "hi"
          ⟨[some ⟨some "He", Option.none⟩, Option.none], some "boom"⟩
        = [⟨"user", "p0"⟩, ⟨"assistant", "r0"⟩,
           ⟨"user", "hi"⟩, ⟨"assistant", "He"⟩]
      ∧ userAssistantAlt (Chat.handle_streaming
          [⟨"user", "p0"⟩, ⟨"assistant", "r0"⟩] "hi"
          ⟨[some ⟨some "He", Option.none⟩, Option.none], some "boom"⟩) = true
      ∧ (∀ failure, Chat.handle_streaming
            [⟨"user", "p0"⟩, ⟨"assistant", "r0"⟩] "hi" ⟨[], failure⟩
          = [⟨"user", "p0"⟩, ⟨"assistant", "r0"⟩,
             ⟨"user", "hi"⟩, ⟨"assistant", ""⟩])) := by
  refine ⟨by decide, ?_⟩
  have h := c10_two_entries_alternating
    [⟨"user", "p0"⟩, ⟨"assistant", "r0"⟩] "hi"
    ⟨[some ⟨some "He", Option.none⟩, Option.none], some "boom"⟩ (by decide)
  simpa using h

end MLEAgent
